import Mathlib

/-!
Verification of the secure error-handling backend (`src/backend/server.py`).

The server exposes a single POST endpoint `/api/error/trigger` whose handler
`trigger_error` reads an optional JSON body, forces a `ZeroDivisionError`
inside a try-block, logs the exception internally and returns a generic 500
response.  A global `errorhandler(500)` named `handle_secure_500` catches any
server error that escapes local handling, logs it, and returns a distinct
generic 500 response with explicit cross-origin headers.

The embedding below translates the Python code directly: JSON values are an
inductive type, Python truthiness and `dict.get` are modelled explicitly,
exceptions are `Except`, and a response carries a status code, the serialized
JSON body string produced by `jsonify`, and a header list.
-/

/-- JSON values as produced by parsing a request body. -/
inductive Json where
  | null
  | bool (b : Bool)
  | num (n : Int)
  | str (s : String)
  | arr (elems : List Json)
  | obj (fields : List (String × Json))

/-- The request body as received over HTTP: absent, present but not valid
JSON, or present and parsed to a JSON value. -/
inductive RequestBody where
  | absent
  | malformed
  | json (j : Json)

/-- Python exceptions that can arise in `trigger_error`: the forced
`ZeroDivisionError`, and the `AttributeError` raised when `.get` is accessed
on a non-dict value.  The `AttributeError` carries the Python type name of
the offending value. -/
inductive PyExn where
  | zeroDivisionError
  | attributeError (typeName : String)

/-- The Python type name of a parsed JSON value (as `json.loads` produces). -/
def pyTypeName : Json → String
  | .null => "NoneType"
  | .bool _ => "bool"
  | .num _ => "int"
  | .str _ => "str"
  | .arr _ => "list"
  | .obj _ => "dict"

/-- The message `str(e)` of an exception. -/
def excMessage : PyExn → String
  | .zeroDivisionError => "division by zero"
  | .attributeError t => t ++ " object has no attribute get"

/-- The traceback attached to a raised exception (`exc_info=True` captures
it): the frames from the raise site inside `trigger_error`. -/
def tracebackOf : PyExn → List String
  | .zeroDivisionError =>
      ["Traceback (most recent call last):",
       "  File server.py, line 43, in trigger_error",
       "    result = 1 / 0",
       "ZeroDivisionError: division by zero"]
  | .attributeError t =>
      ["Traceback (most recent call last):",
       "  File server.py, line 36, in trigger_error",
       "    simulated_input = data.get(...) if data else null",
       "AttributeError: " ++ t ++ " object has no attribute get"]

/-- Python truthiness of a parsed JSON value (`if data:`): `None`, `False`,
`0`, the empty string, the empty list and the empty dict are falsy. -/
def pyTruthy : Json → Bool
  | .null => false
  | .bool b => b
  | .num n => n != 0
  | .str s => s.length != 0
  | .arr elems => !elems.isEmpty
  | .obj fields => !fields.isEmpty

/-- Whether a JSON value is an object (a Python dict, the only value with a
`.get` method among those `json.loads` can return). -/
def isObj : Json → Bool
  | .obj _ => true
  | _ => false

/-- Python `dict.get key` over the parsed object entries. -/
def dictGet (fields : List (String × Json)) (key : String) : Option Json :=
  (fields.find? (fun p => p.1 == key)).map (fun p => p.2)

/-- Flask `request.get_json(silent=True)`: returns the parsed JSON value, or
`None` when the body is absent or not valid JSON (never aborts with 400). -/
def getJsonSilent : RequestBody → Option Json
  | .absent => none
  | .malformed => none
  | .json j => some j

/-- Line 36: `data.get('simulatedInput', 'null') if data else 'null'`.
If `data` is falsy (including `None`) the sentinel string is used; if it is
truthy, `.get` is evaluated, raising `AttributeError` on a non-dict. -/
def getSimulatedInput (data : Option Json) : Except PyExn Json :=
  match data with
  | none => .ok (.str "null")
  | some d =>
    if pyTruthy d then
      match d with
      | .obj fields => .ok ((dictGet fields "simulatedInput").getD (.str "null"))
      | other => .error (.attributeError (pyTypeName other))
    else
      .ok (.str "null")

/-- Python division: raises `ZeroDivisionError` on a zero divisor. -/
def pyDiv (a b : Int) : Except PyExn Int :=
  if b = 0 then .error .zeroDivisionError else .ok (a / b)

/-- Flask `jsonify` applied to a single-field object: the serialized
response body `\x7b"message": "<msg>"\x7d` seen by the client. -/
def jsonifyMessage (msg : String) : String :=
  "\x7b\"message\": \"" ++ msg ++ "\"\x7d"

/-- The generic message of the local handler (line 54). -/
def localErrorMessage : String :=
  "An internal server error occurred. Please try again later."

/-- The message of the unreachable 200 branch (line 45). -/
def unreachableMessage : String :=
  "This should not be reached if an error occurs."

/-- The distinct generic message of the global 500 handler (line 69). -/
def globalErrorMessage : String :=
  "An unexpected internal server error occurred. Please contact support if the issue persists."

/-- A log record written to the internal sink by `app.logger.error`, with
the traceback captured by `exc_info=True`. -/
structure LogEntry where
  level : String
  message : String
  stackTrace : List String
deriving DecidableEq

/-- A client-visible HTTP response: status code, serialized JSON body, and
response headers. -/
structure Response where
  status : Nat
  body : String
  headers : List (String × String)
deriving DecidableEq

/-- `CORS(app)`: flask-cors decorates responses returned by route handlers
with a permissive allow-origin header. -/
def corsDecorate (r : Response) : Response :=
  { r with headers := r.headers ++ [("Access-Control-Allow-Origin", "*")] }

/-- The body of `trigger_error` (lines 32-54): read the optional JSON body,
evaluate the `simulatedInput` expression (which can itself raise, before the
try-block), then run the try-block forcing `1 / 0`; the except-branch logs
the exception with its traceback and returns the generic 500 response.
An exception outside the try-block escapes the handler (`Except.error`). -/
def trigger_error (body : RequestBody) : Except PyExn (Response × List LogEntry) :=
  let data := getJsonSilent body
  match getSimulatedInput data with
  | .error e => .error e
  | .ok _simulated_input =>
    match pyDiv 1 0 with
    | .ok _result =>
        .ok ({ status := 200, body := jsonifyMessage unreachableMessage, headers := [] }, [])
    | .error e =>
        .ok ({ status := 500, body := jsonifyMessage localErrorMessage, headers := [] },
             [{ level := "ERROR",
                message := "An error occurred during processing: " ++ excMessage e,
                stackTrace := tracebackOf e }])

/-- The global 500 handler `handle_secure_500` (lines 60-76): log the
unhandled exception with its traceback, and return the distinct generic 500
response with explicit cross-origin headers. -/
def handle_secure_500 (e : PyExn) : Response × List LogEntry :=
  ({ status := 500,
     body := jsonifyMessage globalErrorMessage,
     headers := [("Access-Control-Allow-Origin", "*"),
                 ("Access-Control-Allow-Headers", "Content-Type")] },
   [{ level := "ERROR",
      message := "An unhandled internal server error occurred: " ++ excMessage e,
      stackTrace := tracebackOf e }])

/-- Dispatch of a POST to `/api/error/trigger`: run `trigger_error`; a
response it returns is decorated by flask-cors, while an exception escaping
it becomes an unhandled 500 routed to `handle_secure_500`. -/
def handleTriggerRequest (body : RequestBody) : Response × List LogEntry :=
  match trigger_error body with
  | .ok (r, logs) => (corsDecorate r, logs)
  | .error e => handle_secure_500 e

/-- One execution of a request against the append-only log sink: the
response, and the sink with this request's log records appended. -/
def runRequest (body : RequestBody) (sink : List LogEntry) : Response × List LogEntry :=
  ((handleTriggerRequest body).1, sink ++ (handleTriggerRequest body).2)

/-- Whether a request body reaches the local except-branch of
`trigger_error`: its parse result is `None`, falsy, or a dict (so the
`simulatedInput` expression does not raise). -/
def reachesLocalHandler : RequestBody → Bool
  | .absent => true
  | .malformed => true
  | .json j => !pyTruthy j || isObj j

/-- Whether the request body is absent, not valid JSON, or parses to an
object lacking the `simulatedInput` key — the cases where line 36 reads the
default sentinel. -/
def lacksSimulatedInput : RequestBody → Bool
  | .absent => true
  | .malformed => true
  | .json (.obj fields) => (fields.find? (fun p => p.1 == "simulatedInput")).isNone
  | .json _ => false

/-- Whether the character list `s` starts with the character list `pat`. -/
def startsWithChars : List Char → List Char → Bool
  | [], _ => true
  | _ :: _, [] => false
  | p :: ps, c :: cs => p == c && startsWithChars ps cs

/-- Whether `pat` occurs as a contiguous run inside `s`. -/
def occursInChars (pat : List Char) : List Char → Bool
  | [] => startsWithChars pat []
  | c :: cs => startsWithChars pat (c :: cs) || occursInChars pat cs

/-- Whether the string `pat` occurs as a substring of `s`. -/
def strOccursIn (pat s : String) : Bool :=
  occursInChars pat.toList s.toList

/-- The client-visible response of the local except-branch, after flask-cors
decoration. -/
def localResponse : Response :=
  { status := 500, body := jsonifyMessage localErrorMessage,
    headers := [("Access-Control-Allow-Origin", "*")] }

/-- The log record written by the local except-branch. -/
def localLog : LogEntry :=
  { level := "ERROR",
    message := "An error occurred during processing: " ++ excMessage PyExn.zeroDivisionError,
    stackTrace := tracebackOf PyExn.zeroDivisionError }

theorem local_outcome (b : RequestBody) (h : reachesLocalHandler b = true) :
    handleTriggerRequest b = (localResponse, [localLog]) := by
  cases b with
  | absent => rfl
  | malformed => rfl
  | json j =>
    rcases hp : pyTruthy j with _ | _
    · simp [handleTriggerRequest, trigger_error, getSimulatedInput, getJsonSilent, hp,
            pyDiv, corsDecorate, localResponse, localLog]
    · cases j with
      | null => simp [pyTruthy] at hp
      | bool v =>
        cases v with
        | false => simp [pyTruthy] at hp
        | true => simp [reachesLocalHandler, pyTruthy, isObj] at h
      | num n => simp [reachesLocalHandler, isObj, hp] at h
      | str s => simp [reachesLocalHandler, isObj, hp] at h
      | arr elems => simp [reachesLocalHandler, isObj, hp] at h
      | obj fields =>
        simp [handleTriggerRequest, trigger_error, getSimulatedInput, getJsonSilent, hp,
              pyDiv, corsDecorate, localResponse, localLog]

theorem trigger_error_raises (j : Json) (h1 : pyTruthy j = true) (h2 : isObj j = false) :
    trigger_error (RequestBody.json j) =
      Except.error (PyExn.attributeError (pyTypeName j)) := by
  cases j with
  | null => simp [pyTruthy] at h1
  | bool v => cases v with
    | false => simp [pyTruthy] at h1
    | true => rfl
  | num n => simp [trigger_error, getSimulatedInput, getJsonSilent, h1]
  | str s => simp [trigger_error, getSimulatedInput, getJsonSilent, h1]
  | arr elems => simp [trigger_error, getSimulatedInput, getJsonSilent, h1]
  | obj fields => simp [isObj] at h2

theorem outcome_cases (b : RequestBody) :
    handleTriggerRequest b = (localResponse, [localLog]) ∨
    ∃ t, (t = "bool" ∨ t = "int" ∨ t = "str" ∨ t = "list") ∧
      handleTriggerRequest b = handle_secure_500 (PyExn.attributeError t) := by
  cases b with
  | absent => exact Or.inl rfl
  | malformed => exact Or.inl rfl
  | json j =>
    rcases hp : pyTruthy j with _ | _
    · exact Or.inl (local_outcome _ (by simp [reachesLocalHandler, hp]))
    · rcases ho : isObj j with _ | _
      · refine Or.inr ?_
        have hr := trigger_error_raises j hp ho
        refine ⟨pyTypeName j, ?_, by simp [handleTriggerRequest, hr]⟩
        cases j with
        | null => simp [pyTruthy] at hp
        | bool v => exact Or.inl rfl
        | num n => exact Or.inr (Or.inl rfl)
        | str s => exact Or.inr (Or.inr (Or.inl rfl))
        | arr elems => exact Or.inr (Or.inr (Or.inr rfl))
        | obj fields => simp [isObj] at ho
      · exact Or.inl (local_outcome _ (by simp [reachesLocalHandler, hp, ho]))

theorem handle_secure_500_status (e : PyExn) : (handle_secure_500 e).1.status = 500 := rfl

theorem handle_secure_500_body (e : PyExn) :
    (handle_secure_500 e).1.body = jsonifyMessage globalErrorMessage := rfl

/-- C1 counterexample: for the POST body `[null]` (valid JSON, truthy,
not an object) the response status is 500 but the body is the global
handler's message, not the local handler's message claimed for every
request body. -/
theorem c1_counterexample :
    (handleTriggerRequest (RequestBody.json (Json.arr [Json.null]))).1.status = 500 ∧
    (handleTriggerRequest (RequestBody.json (Json.arr [Json.null]))).1.body ≠
      jsonifyMessage localErrorMessage ∧
    (handleTriggerRequest (RequestBody.json (Json.arr [Json.null]))).1.body =
      jsonifyMessage globalErrorMessage := by
  refine ⟨rfl, ?_, rfl⟩
  decide

/-- C1 (amended): for every POST request to `/api/error/trigger` whose body
is absent, malformed, or parses to a JSON value that is falsy or an object,
the response has status 500 and the body is exactly
`\x7b"message": "An internal server error occurred. Please try again later."\x7d`;
a body parsing to a truthy non-object value still yields status 500, but
with the global handler's message instead. -/
theorem c1_local_response (b : RequestBody) (h : reachesLocalHandler b = true) :
    (handleTriggerRequest b).1.status = 500 ∧
    (handleTriggerRequest b).1.body = jsonifyMessage localErrorMessage := by
  rw [local_outcome b h]
  exact ⟨rfl, rfl⟩

/-- C1 witness: the amended claim at the concrete input of an absent body. -/
theorem c1_local_response_witness :
    reachesLocalHandler RequestBody.absent = true ∧
    (handleTriggerRequest RequestBody.absent).1.status = 500 ∧
    (handleTriggerRequest RequestBody.absent).1.body = jsonifyMessage localErrorMessage :=
  ⟨rfl, c1_local_response RequestBody.absent rfl⟩

/-- C2: for every request, the response body is one of the two fixed generic
message bodies, and contains none of the substrings "ZeroDivision",
"Traceback", "server.py" (the file path) or ", line " (a line-number frame
marker). -/
theorem c2_no_internal_detail (b : RequestBody) :
    ((handleTriggerRequest b).1.body = jsonifyMessage localErrorMessage ∨
     (handleTriggerRequest b).1.body = jsonifyMessage globalErrorMessage) ∧
    strOccursIn "ZeroDivision" (handleTriggerRequest b).1.body = false ∧
    strOccursIn "Traceback" (handleTriggerRequest b).1.body = false ∧
    strOccursIn "server.py" (handleTriggerRequest b).1.body = false ∧
    strOccursIn ", line " (handleTriggerRequest b).1.body = false := by
  rcases outcome_cases b with h | ⟨t, _, h⟩ <;> rw [h]
  · exact ⟨Or.inl rfl, by decide, by decide, by decide, by decide⟩
  · rw [handle_secure_500_body]
    exact ⟨Or.inr rfl, by decide, by decide, by decide, by decide⟩

/-- C3: any exception escaping local handling is routed to
`handle_secure_500`, whose response has status 500, body exactly
`\x7b"message": "An unexpected internal server error occurred. Please contact support if the issue persists."\x7d`,
and both permissive cross-origin headers. -/
theorem c3_global_fallback (e : PyExn) (b : RequestBody)
    (h : trigger_error b = Except.error e) :
    handleTriggerRequest b = handle_secure_500 e ∧
    (handle_secure_500 e).1.status = 500 ∧
    (handle_secure_500 e).1.body = jsonifyMessage globalErrorMessage ∧
    ("Access-Control-Allow-Origin", "*") ∈ (handle_secure_500 e).1.headers ∧
    ("Access-Control-Allow-Headers", "Content-Type") ∈ (handle_secure_500 e).1.headers := by
  refine ⟨by simp [handleTriggerRequest, h], rfl, rfl, ?_, ?_⟩
  · exact List.mem_cons_self _ _
  · exact List.mem_cons_of_mem _ (List.mem_cons_self _ _)

/-- C3 witness: the concrete unhandled error raised by the body `[null]`
(an `AttributeError` on a list) reaches the global handler. -/
theorem c3_global_fallback_witness :
    trigger_error (RequestBody.json (Json.arr [Json.null])) =
      Except.error (PyExn.attributeError "list") ∧
    handleTriggerRequest (RequestBody.json (Json.arr [Json.null])) =
      handle_secure_500 (PyExn.attributeError "list") ∧
    (handle_secure_500 (PyExn.attributeError "list")).1.status = 500 ∧
    (handle_secure_500 (PyExn.attributeError "list")).1.body = jsonifyMessage globalErrorMessage ∧
    ("Access-Control-Allow-Origin", "*") ∈ (handle_secure_500 (PyExn.attributeError "list")).1.headers ∧
    ("Access-Control-Allow-Headers", "Content-Type") ∈ (handle_secure_500 (PyExn.attributeError "list")).1.headers :=
  ⟨rfl, c3_global_fallback (PyExn.attributeError "list") (RequestBody.json (Json.arr [Json.null])) rfl⟩

/-- C4: the division `1 / 0` in the try-block fails for every request, so no
response ever has status 200 or the success-branch message body. -/
theorem c4_success_unreachable (b : RequestBody) :
    pyDiv 1 0 = Except.error PyExn.zeroDivisionError ∧
    (handleTriggerRequest b).1.status ≠ 200 ∧
    (handleTriggerRequest b).1.body ≠ jsonifyMessage unreachableMessage := by
  refine ⟨rfl, ?_, ?_⟩ <;> rcases outcome_cases b with h | ⟨t, _, h⟩
  · rw [h]; decide
  · rw [h, handle_secure_500_status]; decide
  · rw [h]; decide
  · rw [h, handle_secure_500_body]; decide

/-- C5: an absent body, the empty JSON object, and an object carrying a
`simulatedInput` value produce identical outcomes — the same client-visible
response (status, body and headers) and even the same log records. -/
theorem c5_body_independence :
    handleTriggerRequest RequestBody.absent =
      handleTriggerRequest (RequestBody.json (Json.obj [])) ∧
    handleTriggerRequest RequestBody.absent =
      handleTriggerRequest (RequestBody.json (Json.obj [("simulatedInput", Json.str "x")])) :=
  ⟨rfl, rfl⟩

/-- C6: every request fails and writes exactly one record to the internal
log sink; the record carries some raised exception's message and its
non-empty traceback, and neither the logged message nor any traceback line
occurs in the client-visible response body. -/
theorem c6_log_sink (b : RequestBody) :
    ∃ entry, (handleTriggerRequest b).2 = [entry] ∧
      entry.level = "ERROR" ∧
      entry.stackTrace ≠ [] ∧
      (∃ e : PyExn, strOccursIn (excMessage e) entry.message = true ∧
        entry.stackTrace = tracebackOf e) ∧
      strOccursIn entry.message (handleTriggerRequest b).1.body = false ∧
      entry.stackTrace.all
        (fun line => !strOccursIn line (handleTriggerRequest b).1.body) = true := by
  rcases outcome_cases b with h | ⟨t, ht, h⟩ <;> rw [h]
  · exact ⟨localLog, rfl, rfl, by decide,
      ⟨PyExn.zeroDivisionError, by decide, rfl⟩, by decide, by decide⟩
  · rcases ht with rfl | rfl | rfl | rfl
    · exact ⟨_, rfl, rfl, by decide,
        ⟨PyExn.attributeError "bool", by decide, rfl⟩, by decide, by decide⟩
    · exact ⟨_, rfl, rfl, by decide,
        ⟨PyExn.attributeError "int", by decide, rfl⟩, by decide, by decide⟩
    · exact ⟨_, rfl, rfl, by decide,
        ⟨PyExn.attributeError "str", by decide, rfl⟩, by decide, by decide⟩
    · exact ⟨_, rfl, rfl, by decide,
        ⟨PyExn.attributeError "list", by decide, rfl⟩, by decide, by decide⟩

/-- C7: a body parsing to a truthy non-object value makes line 36 raise an
`AttributeError` before the try-block, so `trigger_error` escapes with the
exception and the response is the global handler's distinct message, not
the local handler's. -/
theorem c7_truthy_nonobject (j : Json) (h1 : pyTruthy j = true) (h2 : isObj j = false) :
    trigger_error (RequestBody.json j) =
      Except.error (PyExn.attributeError (pyTypeName j)) ∧
    handleTriggerRequest (RequestBody.json j) =
      handle_secure_500 (PyExn.attributeError (pyTypeName j)) ∧
    (handleTriggerRequest (RequestBody.json j)).1.body = jsonifyMessage globalErrorMessage ∧
    (handleTriggerRequest (RequestBody.json j)).1.body ≠ jsonifyMessage localErrorMessage := by
  have hr := trigger_error_raises j h1 h2
  have hh : handleTriggerRequest (RequestBody.json j) =
      handle_secure_500 (PyExn.attributeError (pyTypeName j)) := by
    simp [handleTriggerRequest, hr]
  refine ⟨hr, hh, ?_, ?_⟩
  · rw [hh, handle_secure_500_body]
  · rw [hh, handle_secure_500_body]
    decide

/-- C7 witness: the concrete truthy non-object body `"a"` (a JSON string). -/
theorem c7_truthy_nonobject_witness :
    pyTruthy (Json.str "a") = true ∧ isObj (Json.str "a") = false ∧
    trigger_error (RequestBody.json (Json.str "a")) =
      Except.error (PyExn.attributeError (pyTypeName (Json.str "a"))) ∧
    handleTriggerRequest (RequestBody.json (Json.str "a")) =
      handle_secure_500 (PyExn.attributeError (pyTypeName (Json.str "a"))) ∧
    (handleTriggerRequest (RequestBody.json (Json.str "a"))).1.body =
      jsonifyMessage globalErrorMessage ∧
    (handleTriggerRequest (RequestBody.json (Json.str "a"))).1.body ≠
      jsonifyMessage localErrorMessage :=
  ⟨by decide, rfl, c7_truthy_nonobject (Json.str "a") (by decide) rfl⟩

/-- C8: a malformed body is parsed to `None` by `get_json(silent=True)`,
never producing a 400: it is handled exactly like an absent body and reaches
the local handler's generic 500 response. -/
theorem c8_malformed_no_400 :
    getJsonSilent RequestBody.malformed = none ∧
    handleTriggerRequest RequestBody.malformed = handleTriggerRequest RequestBody.absent ∧
    (handleTriggerRequest RequestBody.malformed).1.status = 500 ∧
    (handleTriggerRequest RequestBody.malformed).1.status ≠ 400 ∧
    (handleTriggerRequest RequestBody.malformed).1.body = jsonifyMessage localErrorMessage :=
  ⟨rfl, rfl, rfl, by decide, rfl⟩

/-- C9: handling is deterministic and synchronous: the client-visible
response is the same across executions and does not depend on the state of
the log sink, which only grows by this request's records (no retries). -/
theorem c9_deterministic (b : RequestBody) (s1 s2 : List LogEntry) :
    (runRequest b s1).1 = (runRequest b s2).1 ∧
    (runRequest b ((runRequest b s1).2)).1 = (runRequest b s1).1 ∧
    (runRequest b s1).2 = s1 ++ (handleTriggerRequest b).2 :=
  ⟨rfl, rfl, rfl⟩

/-- C10: when the body is absent, unparseable, or an object lacking the
`simulatedInput` key, line 36 reads the sentinel string "null"; and the
value is used only for printing — every such request, and in fact every
object body whatever its `simulatedInput`, gets the exact response of an
absent body. -/
theorem c10_sentinel_default (b : RequestBody) (h : lacksSimulatedInput b = true) :
    getSimulatedInput (getJsonSilent b) = Except.ok (Json.str "null") ∧
    (handleTriggerRequest b).1 = (handleTriggerRequest RequestBody.absent).1 ∧
    ∀ fields, (handleTriggerRequest (RequestBody.json (Json.obj fields))).1 =
      (handleTriggerRequest RequestBody.absent).1 := by
  have hforall : ∀ fields, (handleTriggerRequest (RequestBody.json (Json.obj fields))).1 =
      (handleTriggerRequest RequestBody.absent).1 := by
    intro fields
    rw [local_outcome (RequestBody.json (Json.obj fields)) (by simp [reachesLocalHandler, isObj]),
        local_outcome RequestBody.absent rfl]
  refine ⟨?_, ?_, hforall⟩
  · cases b with
    | absent => rfl
    | malformed => rfl
    | json j =>
      cases j with
      | null => rfl
      | bool v => simp [lacksSimulatedInput] at h
      | num n => simp [lacksSimulatedInput] at h
      | str s => simp [lacksSimulatedInput] at h
      | arr elems => simp [lacksSimulatedInput] at h
      | obj fields =>
        have hn : fields.find? (fun p => p.1 == "simulatedInput") = none := by
          simpa [lacksSimulatedInput, Option.isNone_iff_eq_none] using h
        rcases hp : pyTruthy (Json.obj fields) with _ | _ <;>
          simp [getSimulatedInput, getJsonSilent, hp, dictGet, hn]
  · cases b with
    | absent => rfl
    | malformed => rfl
    | json j =>
      cases j with
      | null => rfl
      | bool v => simp [lacksSimulatedInput] at h
      | num n => simp [lacksSimulatedInput] at h
      | str s => simp [lacksSimulatedInput] at h
      | arr elems => simp [lacksSimulatedInput] at h
      | obj fields => exact hforall fields

/-- C10 witness: a concrete object body lacking the `simulatedInput` key. -/
theorem c10_sentinel_default_witness :
    lacksSimulatedInput (RequestBody.json (Json.obj [("other", Json.num 1)])) = true ∧
    getSimulatedInput (getJsonSilent (RequestBody.json (Json.obj [("other", Json.num 1)]))) =
      Except.ok (Json.str "null") ∧
    (handleTriggerRequest (RequestBody.json (Json.obj [("other", Json.num 1)]))).1 =
      (handleTriggerRequest RequestBody.absent).1 :=
  ⟨rfl,
   (c10_sentinel_default (RequestBody.json (Json.obj [("other", Json.num 1)])) rfl).1,
   (c10_sentinel_default (RequestBody.json (Json.obj [("other", Json.num 1)])) rfl).2.1⟩
